import Mathlib

/-!
Verification of the SDS data-extraction pipeline (src/sds.py).

The development shallowly embeds the three core components of the program:

* `extract_text_from_pdf` — the Text Recovery Unit: per-page text-layer
  extraction with a whole-document OCR fallback (the pdf is modelled as a
  list of pages, each carrying the text its text layer would yield and the
  text OCR would yield; a byte stream that PyPDF2 cannot parse is the
  `corrupt` case).
* `extract_sds_fields_with_gpt` — the Field Extraction Unit: the network
  call and the JSON parser are external effectful dependencies, modelled as
  an explicit environment of oracles (`ModelEnv`); the function threads the
  same control flow as the Python code (empty-input rejection, markdown
  fence cleanup, parse-or-default) and additionally reports how many model
  invocations it performed.
* `main_batch` / `processEntry` — the per-document loop of `main`: zip
  entry selection, per-entry processing with failure isolation, record
  annotation and table assembly.  The authentication / UI / export code of
  `main` is outside the extraction pipeline and is not modelled.

Python string primitives (`str.strip`, `str.lower`, `str.endswith`,
`str.startswith`, substring containment, `str.replace`,
`os.path.basename`) are modelled by structurally recursive functions over
`String.data` so that every definition evaluates inside the kernel.
Python dicts (as produced by `json.loads`) are modelled as association
lists in insertion order, which is exactly the order `dict.items()`,
`dict.keys()` and `dict.values()` iterate in.
-/

namespace SDS

/-- Model of Python `str.strip()`: remove leading and trailing whitespace. -/
def pyStrip (s : String) : String :=
  String.mk (((s.data.dropWhile Char.isWhitespace).reverse.dropWhile Char.isWhitespace).reverse)

/-- Model of Python `str.lower()`. -/
def pyLower (s : String) : String :=
  String.mk (s.data.map Char.toLower)

/-- Model of Python `str.endswith(suffix)`. -/
def pyEndsWith (s suffix : String) : Bool :=
  suffix.data.isSuffixOf s.data

/-- Model of Python `str.startswith(pre)`. -/
def pyStartsWith (s pre : String) : Bool :=
  pre.data.isPrefixOf s.data

/-- Recursive worker for substring containment. -/
def containsLoop (pat : List Char) : List Char → Bool
  | [] => pat.isEmpty
  | c :: rest => pat.isPrefixOf (c :: rest) || containsLoop pat rest

/-- Model of Python `pat in s` (substring containment). -/
def pyContains (s pat : String) : Bool :=
  containsLoop pat.data s.data

/-- Fuelled worker for `str.replace`: replaces non-overlapping occurrences
left to right, as Python does. -/
def replaceLoop (pat repl : List Char) : Nat → List Char → List Char
  | 0, s => s
  | _ + 1, [] => []
  | fuel + 1, c :: rest =>
      if pat.isPrefixOf (c :: rest) then
        repl ++ replaceLoop pat repl fuel (List.drop (pat.length - 1) rest)
      else
        c :: replaceLoop pat repl fuel rest

/-- Model of Python `s.replace(pat, repl)` for a non-empty pattern. -/
def pyReplace (s pat repl : String) : String :=
  String.mk (replaceLoop pat.data repl.data s.data.length s.data)

/-- Model of Python `os.path.basename`: the part of the path after the
last slash. -/
def pyBasename (s : String) : String :=
  String.mk ((s.data.reverse.takeWhile (fun c => c != '/')).reverse)

/-- Python dict in insertion order, as produced by `json.loads` on an
object with string values (the prompt instructs the model to emit string
values; the code compares values against string literals only). -/
abbrev Dict := List (String × String)

/-- Whether the dict has an entry for key `k` (Python `k in d`). -/
def containsKey (d : Dict) (k : String) : Bool :=
  d.any (fun kv => kv.1 == k)

/-- Lookup (Python `d.get(k)`): the value of the first entry with key `k`. -/
def dictGet (d : Dict) (k : String) : Option String :=
  (d.find? (fun kv => kv.1 == k)).map Prod.snd

/-- Python `d[k] = v`: overwrite in place when the key exists (keeping its
position), otherwise append the new pair at the end. -/
def dictSet (d : Dict) (k v : String) : Dict :=
  if containsKey d k then d.map (fun kv => if kv.1 == k then (k, v) else kv)
  else d ++ [(k, v)]

/-- One page of a parsed PDF: the text its text layer yields via
`page.extract_text()` (the empty string models both `None` and an empty
extraction) and the text OCR (`pytesseract.image_to_string`) yields for
its rasterized image. -/
structure Page where
  textLayer : String
  ocrText : String
  deriving DecidableEq

/-- A PDF byte stream: either unparsable by `PdfReader` (any exception) or
a list of pages. -/
inductive PdfContent where
  | corrupt
  | pages (ps : List Page)
  deriving DecidableEq

/-- Python condition `page_text and page_text.strip()` deciding whether a
page contributes text-layer text. -/
def pageHasText (p : Page) : Bool :=
  p.textLayer != "" && pyStrip p.textLayer != ""

/-- The first loop of `extract_text_from_pdf`: accumulate the text of the
qualifying pages and the `is_text_based` flag. -/
def textPass (ps : List Page) : String × Bool :=
  ps.foldl
    (fun acc p => if pageHasText p then (acc.1 ++ p.textLayer ++ "\n", true) else acc)
    ("", false)

/-- The OCR loop of `extract_text_from_pdf`: OCR every page image and
concatenate with newlines. -/
def ocrPass (ps : List Page) : String :=
  ps.foldl (fun acc p => acc ++ p.ocrText ++ "\n") ""

/-- Embedding of `extract_text_from_pdf` (src/sds.py lines 29-70).  The
second component counts the `pytesseract.image_to_string` calls performed
(`convert_from_bytes` yields one image per page). -/
def extract_text_from_pdf : PdfContent → Option String × Nat
  | PdfContent.corrupt => (none, 0)
  | PdfContent.pages ps =>
      let r := textPass ps
      if !r.2 then (some (ocrPass ps), ps.length)
      else (some r.1, 0)

/-- External dependencies of the Field Extraction Unit: the chat
completion call (which may raise, modelled as `Except`) and `json.loads`
restricted to JSON objects with string values (`none` models
`JSONDecodeError`). -/
structure ModelEnv where
  callModel : String → Except String String
  parseJson : String → Option Dict

/-- The prompt literal of `extract_sds_fields_with_gpt` with the input
text interpolated where the f-string placed it. -/
def sds_prompt (text : String) : String :=
  "\nYou are an assistant that extracts key information from Safety Data Sheets (SDS). Read through the whole document before identifying the fields below. The starting pages may be blank or cover letters, keep reading.\n\nGiven the following text extracted from an SDS document, extract and provide the following information in English:\n\n- Chemical Product (think through, might be mentioned anywhere in the file, including the title name. Might be called product name, etc.)\n- Manufacturer\x27s Name (think through, could be the logo somewhere, could be mentioned in the address, etc. think and reason)\n- Manufacturer\x27s Country (think through, maybe it\x27s in the address, or mentioned elsewhere.)\n- Language (identify this field by recognizing the language the SDS is in)\n- SDS Revision Date (convert it to MM-DD-YYYY format)\n- Product Number (if available)\n- Trade Name (name the product is traded by / commonly known name)\n- Manufacturer Contact (email address)\n- Emergency Phone\n- Phone Number\n- Fax Number\n- Manufacturer Street\n- Manufacturer City\n- Manufacturer State\n- Manufacturer ZIP Code\n\nProvide your findings in valid JSON format. Do not include any markdown formatting, backticks, or the word \x27json\x27. Just return the raw JSON object.\n\nIf any of the fields are not available, use an empty string (\"\") as the value. If the document is not an SDS, use \"Not SDS\" as the value for the \"Parsing Notes\" field and leave all other fields empty.\n\nText:\n\"\"\"\n"
  ++ text ++ "\n\"\"\"\n"

/-- The response cleanup of `extract_sds_fields_with_gpt`:
`output.strip()` then removal of markdown code fences then `strip()`. -/
def cleanModelOutput (content : String) : String :=
  pyStrip (pyReplace (pyReplace (pyStrip content) "```json" "") "```" "")

/-- Embedding of `extract_sds_fields_with_gpt` (src/sds.py lines 76-154).
Returns the extracted dict together with the number of model invocations
performed.  Every failure path of the Python code (the `ValueError` on
empty input, a raising model call, a `JSONDecodeError`) is caught there
and yields the empty dict, which the embedding returns on the same
paths. -/
def extract_sds_fields_with_gpt (env : ModelEnv) (text : String) : Dict × Nat :=
  if text == "" || pyStrip text == "" then ([], 0)
  else
    match env.callModel (sds_prompt text) with
    | Except.error _ => ([], 1)
    | Except.ok content =>
        match env.parseJson (cleanModelOutput content) with
        | some extracted_fields => (extracted_fields, 1)
        | none => ([], 1)

/-- The fifteen schema fields, in the order the prompt lists them. -/
def FieldSchema : List String :=
  ["Chemical Product", "Manufacturer\x27s Name", "Manufacturer\x27s Country", "Language",
   "SDS Revision Date", "Product Number", "Trade Name", "Manufacturer Contact",
   "Emergency Phone", "Phone Number", "Fax Number", "Manufacturer Street",
   "Manufacturer City", "Manufacturer State", "Manufacturer ZIP Code"]

/-- The provenance column name. -/
def scanKey : String := "Scanned SDS Document File Name"

/-- The diagnostics column name. -/
def notesKey : String := "Parsing Notes"

/-- Python `"Not SDS" in extracted_fields.values()`. -/
def hasSentinel (extracted_fields : Dict) : Bool :=
  extracted_fields.any (fun kv => kv.2 == "Not SDS")

/-- The `missing_fields` list comprehension of `main`: keys whose value is
the empty string, in dict iteration order. -/
def missing_fields (extracted_fields : Dict) : List String :=
  (extracted_fields.filter (fun kv => kv.2 == "")).map Prod.fst

/-- The `parsing_notes` value derived in `main` for one record. -/
def parsingNotes (extracted_fields : Dict) : String :=
  if hasSentinel extracted_fields then "Not an SDS"
  else if (missing_fields extracted_fields).isEmpty then ""
  else "Missing: " ++ String.intercalate ", " (missing_fields extracted_fields)

/-- The record annotation of `main` (src/sds.py lines 312-327): blank all
values when the sentinel occurred, then set the provenance and notes
columns with dict assignment. -/
def buildRecord (fileName : String) (extracted_fields : Dict) : Dict :=
  let fields :=
    if hasSentinel extracted_fields
    then extracted_fields.map (fun kv => (kv.1, ""))
    else extracted_fields
  dictSet (dictSet fields scanKey fileName) notesKey (parsingNotes extracted_fields)

/-- The bytes of one zip entry: either `z.read` (or any later step) raises
before text recovery can run, or a PDF byte stream. -/
inductive EntryData where
  | readFail
  | content (c : PdfContent)
  deriving DecidableEq

/-- One zip archive entry: its archive-relative name and its bytes. -/
structure ZipEntry where
  name : String
  data : EntryData
  deriving DecidableEq

/-- Outcome of the per-entry body of the loop in `main`: a record appended
to the table, the per-document recovery error (`st.error` on falsy text),
or the per-document exception handler firing. -/
inductive DocOutcome where
  | row (r : Dict)
  | recoveryError
  | processError
  deriving DecidableEq

/-- Embedding of one iteration of the loop of `main` (src/sds.py lines
302-332): read, recover text, test Python truthiness of the text, extract
fields and annotate the record; the surrounding try/except turns any raise
into `processError` and never propagates. -/
def processEntry (env : ModelEnv) (e : ZipEntry) : DocOutcome :=
  match e.data with
  | EntryData.readFail => DocOutcome.processError
  | EntryData.content c =>
      match (extract_text_from_pdf c).1 with
      | none => DocOutcome.recoveryError
      | some text =>
          if text == "" then DocOutcome.recoveryError
          else
            DocOutcome.row
              (buildRecord (pyBasename e.name) (extract_sds_fields_with_gpt env text).1)

/-- The whole loop of `main`: every selected entry is processed, in
order. -/
def runBatch (env : ModelEnv) (entries : List ZipEntry) : List DocOutcome :=
  entries.map (processEntry env)

/-- The rows accumulated in `all_extracted_fields`. -/
def tableOf (outcomes : List DocOutcome) : List Dict :=
  outcomes.filterMap
    (fun o => match o with | DocOutcome.row r => some r | _ => none)

/-- Number of per-document text-recovery errors reported. -/
def countRecovery (outcomes : List DocOutcome) : Nat :=
  (outcomes.filter (fun o => o == DocOutcome.recoveryError)).length

/-- The zip entry filter of `main` (src/sds.py lines 290-295). -/
def pdfFileTest (file : String) : Bool :=
  pyEndsWith (pyLower file) ".pdf"
  && !(pyContains (pyLower file) "__macosx")
  && !(pyStartsWith (pyBasename file) "._")

/-- The `pdf_files` list of `main`: entry names passing the filter. -/
def pdf_files (names : List String) : List String :=
  names.filter pdfFileTest

/-- Terminal outcome of the batch: the no-eligible-entries error, the
no-rows error, or the assembled table. -/
inductive BatchResult where
  | noPdfs
  | noFields
  | table (rows : List Dict)
  deriving DecidableEq

/-- Embedding of the batch part of `main`: select eligible entries, run
the loop, and assemble the table (the column reordering only permutes
display columns and is not modelled). -/
def main_batch (env : ModelEnv) (entries : List ZipEntry) : BatchResult :=
  let selected := entries.filter (fun e => pdfFileTest e.name)
  if selected.isEmpty then BatchResult.noPdfs
  else
    let rows := tableOf (runBatch env selected)
    if rows.isEmpty then BatchResult.noFields
    else BatchResult.table rows

/-- Worker splitting a character list at a separator. -/
def splitCharLoop (sep : Char) : List Char → List Char → List (List Char)
  | acc, [] => [acc.reverse]
  | acc, c :: rest =>
      if c == sep then acc.reverse :: splitCharLoop sep [] rest
      else splitCharLoop sep (c :: acc) rest

/-- Path components of a slash-separated path. -/
def pathParts (s : String) : List String :=
  (splitCharLoop '/' [] s.data).map String.mk

/-- Modelled from the spec: the claim for file selection excludes entries
under a macOS metadata-namespace directory, that is entries one of whose
directory components is case-insensitively `__MACOSX`. -/
def spec_underMetadataDir (file : String) : Bool :=
  ((pathParts (pyLower file)).dropLast).any (fun part => part == "__macosx")

/-- Modelled from the spec: the selection predicate the claim describes
for one entry name. -/
def spec_selectTest (file : String) : Bool :=
  pyEndsWith (pyLower file) ".pdf"
  && !(spec_underMetadataDir file)
  && !(pyStartsWith (pyBasename file) "._")

/-- Modelled from the spec: the eligible set the claim describes. -/
def spec_selected (names : List String) : List String :=
  names.filter spec_selectTest

/-- Modelled from the spec: the missing-field note with the empty-valued
FieldSchema keys listed in FieldSchema order. -/
def spec_missingNote (m : Dict) : String :=
  "Missing: " ++ String.intercalate ", "
    (FieldSchema.filter (fun k => dictGet m k == some ""))

/-- A model environment whose model call always raises. -/
def envFail : ModelEnv :=
  { callModel := fun _ => Except.error "network down", parseJson := fun _ => none }

/-- A model environment whose call succeeds but whose response does not
parse as JSON. -/
def envBadJson : ModelEnv :=
  { callModel := fun _ => Except.ok "I cannot help with that", parseJson := fun _ => none }

/-- A deterministic stub environment: the model call succeeds and the
response parses to a one-field object. -/
def envStub : ModelEnv :=
  { callModel := fun _ => Except.ok "resp",
    parseJson := fun _ => some [("Chemical Product", "Acetone")] }

end SDS

namespace SDS

/-- Joining no strings gives the empty string. -/
theorem strJoin_nil : String.join [] = "" := rfl

/-- Joining a cons: the head appended to the join of the tail. -/
theorem strJoin_cons (s : String) (l : List String) :
    String.join (s :: l) = s ++ String.join l := by
  cases s with
  | mk data => rw [String.join_eq, String.join_eq]; rfl

/-- The page-contribution test reduces to the post-strip non-emptiness
test, because stripping the empty string yields the empty string. -/
theorem pageHasText_eq (p : Page) : pageHasText p = (pyStrip p.textLayer != "") := by
  unfold pageHasText
  by_cases h : p.textLayer = ""
  · rw [h]; decide
  · simp [h]

/-- Closed form of the text-layer accumulation loop, for any starting
accumulator. -/
theorem textPass_go (ps : List Page) (acc : String × Bool) :
    ps.foldl
        (fun acc p => if pageHasText p then (acc.1 ++ p.textLayer ++ "\n", true) else acc)
        acc
      = (acc.1 ++ String.join ((ps.filter pageHasText).map (fun p => p.textLayer ++ "\n")),
         acc.2 || ps.any pageHasText) := by
  induction ps generalizing acc with
  | nil => cases acc; simp [strJoin_nil, String.append_empty]
  | cons p ps ih =>
      by_cases h : pageHasText p = true
      · rw [List.foldl_cons]
        simp only [h, if_true]
        rw [ih]
        simp [h, List.filter_cons, strJoin_cons, String.append_assoc]
      · rw [List.foldl_cons]
        simp only [h]
        rw [ih]
        simp [h, List.filter_cons]

/-- Closed form of `textPass`. -/
theorem textPass_eq (ps : List Page) :
    textPass ps
      = (String.join ((ps.filter pageHasText).map (fun p => p.textLayer ++ "\n")),
         ps.any pageHasText) := by
  unfold textPass
  rw [textPass_go]
  simp [String.empty_append]

/-- Closed form of the OCR accumulation loop. -/
theorem ocrPass_go (ps : List Page) (init : String) :
    ps.foldl (fun acc p => acc ++ p.ocrText ++ "\n") init
      = init ++ String.join (ps.map (fun p => p.ocrText ++ "\n")) := by
  induction ps generalizing init with
  | nil => simp [strJoin_nil, String.append_empty]
  | cons p ps ih =>
      rw [List.foldl_cons, ih, List.map_cons, strJoin_cons]
      simp [String.append_assoc]

/-- Closed form of `ocrPass`. -/
theorem ocrPass_eq (ps : List Page) :
    ocrPass ps = String.join (ps.map (fun p => p.ocrText ++ "\n")) := by
  unfold ocrPass
  rw [ocrPass_go]
  simp [String.empty_append]

end SDS

namespace SDS

/-- A lookup misses exactly when no entry carries the key. -/
theorem dictGet_eq_none_iff (d : Dict) (k : String) :
    dictGet d k = none ↔ containsKey d k = false := by
  induction d with
  | nil => simp [dictGet, containsKey]
  | cons kv d ih =>
      by_cases hk : (kv.1 == k) = true
      · simp [dictGet, containsKey, List.find?, hk]
      · have hk2 : (kv.1 == k) = false := by simpa using hk
        simp only [dictGet, containsKey, List.find?, hk2, List.any_cons, Bool.false_or]
        exact ih

/-- Membership of an entry makes its key present. -/
theorem containsKey_of_mem (d : Dict) (kv : String × String) (h : kv ∈ d) :
    containsKey d kv.1 = true := by
  unfold containsKey
  rw [List.any_eq_true]
  exact ⟨kv, h, by simp⟩

/-- When no entry carries the key the underlying search fails. -/
theorem find?_none_of_not_contains (d : Dict) (k : String) (h : containsKey d k = false) :
    d.find? (fun kv => kv.1 == k) = none := by
  induction d with
  | nil => rfl
  | cons kv d ih =>
      have hk : (kv.1 == k) = false := by
        by_contra hc
        have hc2 : (kv.1 == k) = true := by simpa using hc
        simp [containsKey, List.any_cons, hc2] at h
      have h2 : containsKey d k = false := by
        simpa [containsKey, List.any_cons, hk] using h
      simp [List.find?, hk, ih h2]

/-- Blanking every value maps a hit to `some ""` and preserves misses. -/
theorem dictGet_blank (d : Dict) (k : String) :
    dictGet (d.map (fun kv => (kv.1, ""))) k = (dictGet d k).map (fun _ => "") := by
  unfold dictGet
  rw [List.find?_map]
  have hpg : ((fun kv : String × String => kv.1 == k) ∘ (fun kv : String × String => (kv.1, "")))
      = (fun kv : String × String => kv.1 == k) := rfl
  rw [hpg]
  cases d.find? (fun kv : String × String => kv.1 == k) <;> rfl

/-- Overwriting the value of a present key puts `(k, v)` at the first
position the search visits for `k`. -/
theorem find?_map_set_self (d : Dict) (k v : String) (h : containsKey d k = true) :
    (d.map (fun kv => if kv.1 == k then (k, v) else kv)).find? (fun kv => kv.1 == k)
      = some (k, v) := by
  induction d with
  | nil => simp [containsKey] at h
  | cons kv d ih =>
      by_cases hk : (kv.1 == k) = true
      · rw [List.map_cons, if_pos hk]
        simp only [List.find?, beq_self_eq_true]
      · have hk2 : (kv.1 == k) = false := by simpa using hk
        have h2 : containsKey d k = true := by
          simpa [containsKey, List.any_cons, hk2] using h
        rw [List.map_cons, if_neg hk]
        simp only [List.find?, hk2]
        exact ih h2

/-- Overwriting the value of key `k` does not change what the search for
any other key returns, up to the stored value projection. -/
theorem find?_map_set_other (d : Dict) (k v k2 : String) (hne : k2 ≠ k) :
    ((d.map (fun kv => if kv.1 == k then (k, v) else kv)).find? (fun kv => kv.1 == k2)).map Prod.snd
      = (d.find? (fun kv => kv.1 == k2)).map Prod.snd := by
  have hkk2 : (k == k2) = false := by rw [beq_eq_false_iff_ne]; exact Ne.symm hne
  induction d with
  | nil => rfl
  | cons kv d ih =>
      by_cases hk : (kv.1 == k) = true
      · have hkv : kv.1 = k := by simpa using hk
        have hb : (kv.1 == k2) = false := by rw [hkv]; exact hkk2
        rw [List.map_cons, if_pos hk]
        simp only [List.find?, hkk2, hb]
        exact ih
      · have hk2 : (kv.1 == k) = false := by simpa using hk
        by_cases hc : (kv.1 == k2) = true
        · rw [List.map_cons, if_neg hk]
          simp only [List.find?, hc]
        · have hc2 : (kv.1 == k2) = false := by simpa using hc
          rw [List.map_cons, if_neg hk]
          simp only [List.find?, hc2]
          exact ih

/-- Setting a key makes its lookup return the new value. -/
theorem dictGet_dictSet_self (d : Dict) (k v : String) :
    dictGet (dictSet d k v) k = some v := by
  unfold dictSet
  by_cases h : containsKey d k = true
  · rw [if_pos h]
    unfold dictGet
    rw [find?_map_set_self d k v h]
    rfl
  · rw [if_neg h]
    have h2 : containsKey d k = false := by simpa using h
    unfold dictGet
    rw [List.find?_append, find?_none_of_not_contains d k h2]
    simp [List.find?]

/-- Setting one key leaves the lookup of every other key unchanged. -/
theorem dictGet_dictSet_other (d : Dict) (k v k2 : String) (hne : k2 ≠ k) :
    dictGet (dictSet d k v) k2 = dictGet d k2 := by
  unfold dictSet
  by_cases h : containsKey d k = true
  · rw [if_pos h]
    unfold dictGet
    exact find?_map_set_other d k v k2 hne
  · rw [if_neg h]
    unfold dictGet
    rw [List.find?_append]
    have hkk2 : (k == k2) = false := by rw [beq_eq_false_iff_ne]; exact Ne.symm hne
    cases hf : d.find? (fun kv => kv.1 == k2) with
    | some y => rfl
    | none => simp [List.find?, hkk2]

/-- In a dict with pairwise distinct keys, a member entry is what lookup
returns. -/
theorem dictGet_of_mem_nodup (d : Dict) (k v : String)
    (hnd : (d.map Prod.fst).Nodup) (h : (k, v) ∈ d) : dictGet d k = some v := by
  induction d with
  | nil => cases h
  | cons kv d ih =>
      rcases List.mem_cons.mp h with heq | hmem
      · subst heq
        simp [dictGet, List.find?]
      · by_cases hk : (kv.1 == k) = true
        · exfalso
          have hkv : kv.1 = k := by simpa using hk
          have hmemk : k ∈ d.map Prod.fst := List.mem_map.mpr ⟨(k, v), hmem, rfl⟩
          rw [List.map_cons, List.nodup_cons] at hnd
          exact hnd.1 (hkv ▸ hmemk)
        · have hk2 : (kv.1 == k) = false := by simpa using hk
          rw [List.map_cons, List.nodup_cons] at hnd
          simp only [dictGet, List.find?, hk2]
          simpa [dictGet] using ih hnd.2 hmem

end SDS

namespace SDS

/-- Record assembly in the sentinel case: all values blanked, provenance
set, notes set to the fixed string. -/
theorem buildRecord_sentinel (fn : String) (m : Dict) (hs : hasSentinel m = true) :
    buildRecord fn m
      = dictSet (dictSet (m.map (fun kv => (kv.1, ""))) scanKey fn) notesKey "Not an SDS" := by
  unfold buildRecord parsingNotes
  rw [if_pos hs, if_pos hs]

/-- Record assembly without the sentinel: the model mapping is kept as is,
then provenance and notes are set. -/
theorem buildRecord_no_sentinel (fn : String) (m : Dict) (hs : hasSentinel m = false) :
    buildRecord fn m = dictSet (dictSet m scanKey fn) notesKey (parsingNotes m) := by
  unfold buildRecord
  rw [if_neg (by simp [hs])]

/-- The two derived column names differ. -/
theorem scanKey_ne_notesKey : scanKey ≠ notesKey := by decide

/-- C5: when any value of the extracted mapping equals the sentinel
"Not SDS", the appended record carries the empty string for every key the
model supplied (apart from the two derived columns, which are overwritten
with the file name and the note), and its Parsing Notes value is exactly
"Not an SDS". -/
theorem c5_sentinel_blanking (m : Dict) (fn : String) (h : hasSentinel m = true) :
    (∀ kv ∈ m, kv.1 ≠ scanKey → kv.1 ≠ notesKey →
        dictGet (buildRecord fn m) kv.1 = some "")
  ∧ dictGet (buildRecord fn m) notesKey = some "Not an SDS" := by
  rw [buildRecord_sentinel fn m h]
  constructor
  · intro kv hm hks hkn
    rw [dictGet_dictSet_other _ _ _ _ hkn, dictGet_dictSet_other _ _ _ _ hks,
        dictGet_blank]
    have hc := containsKey_of_mem m kv hm
    cases hg : dictGet m kv.1 with
    | none =>
        rw [dictGet_eq_none_iff] at hg
        rw [hc] at hg
        cases hg
    | some w => rfl
  · exact dictGet_dictSet_self _ _ _

/-- Witness for C5: a mapping holding a sentinel value blanks the other
field and sets the note. -/
theorem c5_sentinel_blanking_witness :
    dictGet (buildRecord "f.pdf" [("Chemical Product", "x"), ("Language", "Not SDS")])
        "Chemical Product" = some ""
  ∧ dictGet (buildRecord "f.pdf" [("Chemical Product", "x"), ("Language", "Not SDS")])
        notesKey = some "Not an SDS" :=
  ⟨(c5_sentinel_blanking [("Chemical Product", "x"), ("Language", "Not SDS")] "f.pdf"
      (by decide)).1 ("Chemical Product", "x") (by decide) (by decide) (by decide),
   (c5_sentinel_blanking [("Chemical Product", "x"), ("Language", "Not SDS")] "f.pdf"
      (by decide)).2⟩

/-- C6 counterexample: for the no-sentinel mapping whose keys arrive in
the order Manufacturer Name then Chemical Product, both empty, the code
lists the missing fields in mapping order, which differs from the
FieldSchema order the claim requires. -/
theorem c6_counterexample :
    dictGet (buildRecord "f.pdf" [("Manufacturer\x27s Name", ""), ("Chemical Product", "")])
        notesKey
      = some "Missing: Manufacturer\x27s Name, Chemical Product"
  ∧ spec_missingNote [("Manufacturer\x27s Name", ""), ("Chemical Product", "")]
      = "Missing: Chemical Product, Manufacturer\x27s Name"
  ∧ dictGet (buildRecord "f.pdf" [("Manufacturer\x27s Name", ""), ("Chemical Product", "")])
        notesKey
      ≠ some (spec_missingNote [("Manufacturer\x27s Name", ""), ("Chemical Product", "")]) :=
  ⟨by decide, by decide, by decide⟩

/-- C6 (amended): without the sentinel, Parsing Notes is the empty string
when no supplied value is empty, and otherwise equals "Missing: " followed
by the comma-space-joined keys whose value is the empty string, listed in
the order of the extracted mapping (the model output order), not re-sorted
to FieldSchema order. -/
theorem c6_missing_note_order (m : Dict) (fn : String) (h : hasSentinel m = false) :
    dictGet (buildRecord fn m) notesKey
      = some (if (missing_fields m).isEmpty then ""
              else "Missing: " ++ String.intercalate ", " (missing_fields m)) := by
  rw [buildRecord_no_sentinel fn m h, dictGet_dictSet_self]
  unfold parsingNotes
  rw [if_neg (by simp [h])]

/-- Witness for C6: the claim example, with keys in schema order, yields
the note naming the first and third fields. -/
theorem c6_missing_note_order_witness :
    dictGet (buildRecord "f.pdf"
        [("Chemical Product", ""), ("Manufacturer\x27s Name", "x"),
         ("Manufacturer\x27s Country", "")]) notesKey
      = some "Missing: Chemical Product, Manufacturer\x27s Country" :=
  (c6_missing_note_order
      [("Chemical Product", ""), ("Manufacturer\x27s Name", "x"),
       ("Manufacturer\x27s Country", "")] "f.pdf" (by decide)).trans (by decide)

/-- C10: without the sentinel the produced record is determined entirely
by the model mapping: a key absent from the mapping (and distinct from the
two derived columns) is absent from the record and never listed in the
missing-field note, while every key the model supplied — schema field or
invented extra — keeps its value in the record and is listed in the note
exactly when that value is the empty string. -/
theorem c10_record_mirrors_model (m : Dict) (fn : String)
    (hs : hasSentinel m = false) (hnd : (m.map Prod.fst).Nodup) :
    (∀ k, dictGet m k = none → k ≠ scanKey → k ≠ notesKey →
        dictGet (buildRecord fn m) k = none)
  ∧ (∀ k, dictGet m k = none → k ∉ missing_fields m)
  ∧ (∀ k v, (k, v) ∈ m → k ≠ scanKey → k ≠ notesKey →
        dictGet (buildRecord fn m) k = some v)
  ∧ (∀ k v, (k, v) ∈ m → (k ∈ missing_fields m ↔ v = "")) := by
  refine ⟨?_, ?_, ?_, ?_⟩
  · intro k hk hks hkn
    rw [buildRecord_no_sentinel fn m hs,
        dictGet_dictSet_other _ _ _ _ hkn, dictGet_dictSet_other _ _ _ _ hks]
    exact hk
  · intro k hk hmem
    rw [dictGet_eq_none_iff] at hk
    obtain ⟨kv, hkvf, hfst⟩ := List.mem_map.mp hmem
    have hkvm : kv ∈ m := List.mem_of_mem_filter hkvf
    have := containsKey_of_mem m kv hkvm
    rw [hfst] at this
    rw [this] at hk
    cases hk
  · intro k v hm hks hkn
    rw [buildRecord_no_sentinel fn m hs,
        dictGet_dictSet_other _ _ _ _ hkn, dictGet_dictSet_other _ _ _ _ hks]
    exact dictGet_of_mem_nodup m k v hnd hm
  · intro k v hm
    constructor
    · intro hmem
      obtain ⟨kv, hkvf, hfst⟩ := List.mem_map.mp hmem
      have hkvm : kv ∈ m := List.mem_of_mem_filter hkvf
      have hempty : (kv.2 == "") = true := by
        have := List.mem_filter.mp hkvf
        simpa using this.2
      have hv1 := dictGet_of_mem_nodup m k v hnd hm
      have hv2 : dictGet m k = some kv.2 := by
        have : (k, kv.2) ∈ m := by
          have hkv : kv = (k, kv.2) := by
            cases kv
            simp only at hfst
            rw [hfst]
          rw [← hkv]
          exact hkvm
        exact dictGet_of_mem_nodup m k kv.2 hnd this
      rw [hv1] at hv2
      have hveq : v = kv.2 := by injection hv2
      rw [hveq]
      simpa using hempty
    · intro hv
      refine List.mem_map.mpr ⟨(k, v), List.mem_filter.mpr ⟨hm, ?_⟩, rfl⟩
      simp [hv]

/-- Witness for C10: a mapping omitting Chemical Product and carrying the
extra key Foo with an empty value produces a record with no Chemical
Product column, the extra key kept, and Foo listed as missing. -/
theorem c10_record_mirrors_model_witness :
    dictGet (buildRecord "f.pdf" [("Foo", ""), ("Manufacturer\x27s Name", "A")])
        "Chemical Product" = none
  ∧ "Chemical Product" ∉ missing_fields [("Foo", ""), ("Manufacturer\x27s Name", "A")]
  ∧ dictGet (buildRecord "f.pdf" [("Foo", ""), ("Manufacturer\x27s Name", "A")])
        "Foo" = some ""
  ∧ ("Foo" ∈ missing_fields [("Foo", ""), ("Manufacturer\x27s Name", "A")] ↔ ("" : String) = "") :=
  ⟨(c10_record_mirrors_model [("Foo", ""), ("Manufacturer\x27s Name", "A")] "f.pdf"
      (by decide) (by decide)).1 "Chemical Product" (by decide) (by decide) (by decide),
   (c10_record_mirrors_model [("Foo", ""), ("Manufacturer\x27s Name", "A")] "f.pdf"
      (by decide) (by decide)).2.1 "Chemical Product" (by decide),
   (c10_record_mirrors_model [("Foo", ""), ("Manufacturer\x27s Name", "A")] "f.pdf"
      (by decide) (by decide)).2.2.1 "Foo" "" (by decide) (by decide) (by decide),
   (c10_record_mirrors_model [("Foo", ""), ("Manufacturer\x27s Name", "A")] "f.pdf"
      (by decide) (by decide)).2.2.2 "Foo" "" (by decide)⟩

end SDS

namespace SDS

/-- Empty or whitespace-only input makes the extractor return the empty
mapping without invoking the model. -/
theorem extract_blank_input (env : ModelEnv) (text : String)
    (h : (text == "" || pyStrip text == "") = true) :
    extract_sds_fields_with_gpt env text = ([], 0) := by
  unfold extract_sds_fields_with_gpt
  rw [h]
  simp

/-- Non-blank input reaches the model call and the parser, and the result
is exactly determined by their outcomes. -/
theorem extract_nonblank (env : ModelEnv) (text : String)
    (h : (text == "" || pyStrip text == "") = false) :
    extract_sds_fields_with_gpt env text
      = match env.callModel (sds_prompt text) with
        | Except.error _ => ([], 1)
        | Except.ok content =>
            match env.parseJson (cleanModelOutput content) with
            | some extracted_fields => (extracted_fields, 1)
            | none => ([], 1) := by
  unfold extract_sds_fields_with_gpt
  rw [h]
  simp

/-- A whitespace-only string fails the Python truthiness-and-strip test. -/
theorem blank_cond_of_strip (text : String) (h : pyStrip text = "") :
    (text == "" || pyStrip text == "") = true := by
  have h2 : (pyStrip text == "") = true := by rw [beq_iff_eq]; exact h
  rw [h2, Bool.or_true]

/-- A string with post-strip content passes the Python truthiness test. -/
theorem nonblank_cond_of_strip (text : String) (h : pyStrip text ≠ "") :
    (text == "" || pyStrip text == "") = false := by
  have h1 : (pyStrip text == "") = false := by rw [beq_eq_false_iff_ne]; exact h
  have h0 : (text == "") = false := by
    rw [beq_eq_false_iff_ne]
    intro he
    apply h
    rw [he]
    decide
  rw [h0, h1]
  rfl

/-- C1 counterexample: on empty input the extractor returns the empty
mapping, which contains none of the fifteen FieldSchema keys, so the
appended row lacks the fixed column set. -/
theorem c1_counterexample :
    (extract_sds_fields_with_gpt envFail "").1 = []
  ∧ containsKey (extract_sds_fields_with_gpt envFail "").1 "Chemical Product" = false
  ∧ FieldSchema.all
      (fun k => containsKey (extract_sds_fields_with_gpt envFail "").1 k) = false :=
  ⟨by decide, by decide, by decide⟩

/-- C1 (amended): the extractor returns the mapping parsed from the model
response unchanged, so it contains every FieldSchema key exactly when the
parsed model output does; on every failure path it instead returns the
empty mapping, which contains no key at all. -/
theorem c1_schema_keys_follow_model (env : ModelEnv) (text content : String) (m : Dict)
    (ht : pyStrip text ≠ "")
    (hok : env.callModel (sds_prompt text) = Except.ok content)
    (hparse : env.parseJson (cleanModelOutput content) = some m) :
    (extract_sds_fields_with_gpt env text).1 = m
  ∧ FieldSchema.all (fun k => containsKey (extract_sds_fields_with_gpt env text).1 k)
      = FieldSchema.all (fun k => containsKey m k) := by
  have hrun : extract_sds_fields_with_gpt env text = (m, 1) := by
    simp [extract_nonblank env text (nonblank_cond_of_strip text ht), hok, hparse]
  rw [hrun]
  exact ⟨rfl, rfl⟩

/-- Witness for C1 (amended): with a stub model supplying one field, the
extractor returns exactly that mapping. -/
theorem c1_schema_keys_follow_model_witness :
    (extract_sds_fields_with_gpt envStub "doc").1 = [("Chemical Product", "Acetone")] :=
  (c1_schema_keys_follow_model envStub "doc" "resp" [("Chemical Product", "Acetone")]
      (by decide) rfl rfl).1

/-- C9: the extractor never propagates an exception: empty or
whitespace-only input returns the empty mapping with zero model
invocations, a raising model call yields the empty mapping, and a
response the parser rejects yields the empty mapping. -/
theorem c9_extract_degrades_gracefully (env : ModelEnv) (text : String) :
    (pyStrip text = "" → extract_sds_fields_with_gpt env text = ([], 0))
  ∧ (∀ err, env.callModel (sds_prompt text) = Except.error err →
        (extract_sds_fields_with_gpt env text).1 = [])
  ∧ (∀ content, env.callModel (sds_prompt text) = Except.ok content →
        env.parseJson (cleanModelOutput content) = none →
        (extract_sds_fields_with_gpt env text).1 = []) := by
  refine ⟨?_, ?_, ?_⟩
  · intro h
    exact extract_blank_input env text (blank_cond_of_strip text h)
  · intro err herr
    by_cases hb : (text == "" || pyStrip text == "") = true
    · rw [extract_blank_input env text hb]
    · have hb2 : (text == "" || pyStrip text == "") = false := by simpa using hb
      simp [extract_nonblank env text hb2, herr]
  · intro content hok hparse
    by_cases hb : (text == "" || pyStrip text == "") = true
    · rw [extract_blank_input env text hb]
    · have hb2 : (text == "" || pyStrip text == "") = false := by simpa using hb
      simp [extract_nonblank env text hb2, hok, hparse]

/-- Witness for C9: blank input performs no model call; a raising call
and a non-JSON response both return the empty mapping. -/
theorem c9_extract_degrades_gracefully_witness :
    extract_sds_fields_with_gpt envFail " \n " = ([], 0)
  ∧ (extract_sds_fields_with_gpt envFail "doc").1 = []
  ∧ (extract_sds_fields_with_gpt envBadJson "doc").1 = [] :=
  ⟨(c9_extract_degrades_gracefully envFail " \n ").1 (by decide),
   (c9_extract_degrades_gracefully envFail "doc").2.1 "network down" rfl,
   (c9_extract_degrades_gracefully envBadJson "doc").2.2 "I cannot help with that" rfl rfl⟩

end SDS

namespace SDS

/-- C2 counterexample: a one-page document with no text layer whose OCR
output is the empty string recovers the text "\n", which is
whitespace-only after stripping, yet the orchestrator treats it as
success and produces a row (with empty extraction and empty notes)
instead of emitting a per-document error. -/
theorem c2_counterexample :
    (extract_text_from_pdf (PdfContent.pages [⟨"", ""⟩])).1 = some "\n"
  ∧ pyStrip "\n" = ""
  ∧ processEntry envStub ⟨"a.pdf", EntryData.content (PdfContent.pages [⟨"", ""⟩])⟩
      = DocOutcome.row [(scanKey, "a.pdf"), (notesKey, "")] :=
  ⟨by decide, by decide, by decide⟩

/-- C2 (amended): for a readable document, no row is produced exactly
when text recovery returns the failure value or the empty string;
whitespace-only non-empty recovered text counts as success and yields a
row. -/
theorem c2_row_skip_iff (env : ModelEnv) (name : String) (c : PdfContent) :
    processEntry env ⟨name, EntryData.content c⟩ = DocOutcome.recoveryError
      ↔ ((extract_text_from_pdf c).1 = none ∨ (extract_text_from_pdf c).1 = some "") := by
  unfold processEntry
  cases hf : (extract_text_from_pdf c).1 with
  | none => simp [hf]
  | some t =>
      by_cases ht : (t == "") = true
      · have hte : t = "" := by simpa using ht
        simp [hf, ht, hte]
      · have ht2 : (t == "") = false := by simpa using ht
        have hte : ¬ t = "" := by simpa using ht
        simp [hf, ht2, hte]

/-- Witness for C2 (amended): a corrupt document is skipped as a
recovery error. -/
theorem c2_row_skip_iff_witness :
    processEntry envStub ⟨"b.pdf", EntryData.content PdfContent.corrupt⟩
      = DocOutcome.recoveryError :=
  (c2_row_skip_iff envStub "b.pdf" PdfContent.corrupt).mpr (Or.inl (by decide))

/-- C7: batch processing is per-entry and order-preserving: the outcome
list splits around any entry, so one entry's failure never changes how
the other entries are processed, and every entry of the batch is
processed. -/
theorem c7_failure_isolation (env : ModelEnv) (es1 es2 : List ZipEntry) (e : ZipEntry) :
    runBatch env (es1 ++ e :: es2)
      = runBatch env es1 ++ processEntry env e :: runBatch env es2
  ∧ (runBatch env (es1 ++ e :: es2)).length = es1.length + 1 + es2.length := by
  constructor
  · unfold runBatch
    simp
  · unfold runBatch
    simp
    omega

/-- Witness for C7: a three-document batch whose middle document is
corrupt yields a two-row table and exactly one per-document recovery
error, while both healthy documents are processed. -/
theorem c7_failure_isolation_witness :
    runBatch envStub
        [⟨"a.pdf", EntryData.content (PdfContent.pages [⟨"hello", ""⟩])⟩,
         ⟨"b.pdf", EntryData.content PdfContent.corrupt⟩,
         ⟨"c.pdf", EntryData.content (PdfContent.pages [⟨"world", ""⟩])⟩]
      = runBatch envStub [⟨"a.pdf", EntryData.content (PdfContent.pages [⟨"hello", ""⟩])⟩]
        ++ processEntry envStub ⟨"b.pdf", EntryData.content PdfContent.corrupt⟩
        :: runBatch envStub [⟨"c.pdf", EntryData.content (PdfContent.pages [⟨"world", ""⟩])⟩]
  ∧ (tableOf (runBatch envStub
        [⟨"a.pdf", EntryData.content (PdfContent.pages [⟨"hello", ""⟩])⟩,
         ⟨"b.pdf", EntryData.content PdfContent.corrupt⟩,
         ⟨"c.pdf", EntryData.content (PdfContent.pages [⟨"world", ""⟩])⟩])).length = 2
  ∧ countRecovery (runBatch envStub
        [⟨"a.pdf", EntryData.content (PdfContent.pages [⟨"hello", ""⟩])⟩,
         ⟨"b.pdf", EntryData.content PdfContent.corrupt⟩,
         ⟨"c.pdf", EntryData.content (PdfContent.pages [⟨"world", ""⟩])⟩]) = 1 :=
  ⟨(c7_failure_isolation envStub
      [⟨"a.pdf", EntryData.content (PdfContent.pages [⟨"hello", ""⟩])⟩]
      [⟨"c.pdf", EntryData.content (PdfContent.pages [⟨"world", ""⟩])⟩]
      ⟨"b.pdf", EntryData.content PdfContent.corrupt⟩).1,
   by decide, by decide⟩

/-- C8 counterexample: an entry whose name merely contains the substring
"__macosx" without being under a metadata directory is excluded by the
code, while the claim's characterization selects it. -/
theorem c8_counterexample :
    pdf_files ["a__macosx.pdf"] = []
  ∧ spec_selected ["a__macosx.pdf"] = ["a__macosx.pdf"]
  ∧ pdf_files ["a__macosx.pdf"] ≠ spec_selected ["a__macosx.pdf"] :=
  ⟨by decide, by decide, by decide⟩

/-- C8 (amended): the selected entries are exactly those whose lowercased
name ends in ".pdf", does not contain the substring "__macosx" anywhere
in the path (a strictly stronger exclusion than metadata directories
only), and whose base name does not start with "._"; the macOS example
selects exactly ["A.pdf"]; and an empty selection makes the batch signal
the no-PDFs error, producing no table. -/
theorem c8_file_selection (names : List String) (x : String) :
    (x ∈ pdf_files names
      ↔ x ∈ names
        ∧ (pyEndsWith (pyLower x) ".pdf"
           && !(pyContains (pyLower x) "__macosx")
           && !(pyStartsWith (pyBasename x) "._")) = true)
  ∧ pdf_files ["A.pdf", "__MACOSX/A.pdf", "._A.pdf", "notes.txt"] = ["A.pdf"]
  ∧ (∀ (env : ModelEnv) (entries : List ZipEntry),
        (entries.filter (fun e => pdfFileTest e.name)).isEmpty = true →
        main_batch env entries = BatchResult.noPdfs) := by
  refine ⟨?_, by decide, ?_⟩
  · unfold pdf_files pdfFileTest
    exact List.mem_filter
  · intro env entries h
    simp [main_batch, h]

/-- Witness for C8 (amended): a batch holding only a non-PDF entry
signals the no-PDFs error. -/
theorem c8_file_selection_witness :
    main_batch envStub [⟨"notes.txt", EntryData.readFail⟩] = BatchResult.noPdfs :=
  (c8_file_selection [] "x").2.2 envStub [⟨"notes.txt", EntryData.readFail⟩] (by decide)

end SDS

namespace SDS

/-- C3: for every parseable document with at least one page whose text
layer is non-empty after stripping, text recovery performs zero OCR calls
and returns exactly the page-order concatenation of the contributing
pages' text-layer text, a newline appended after each contributing page;
non-contributing pages add nothing. -/
theorem c3_text_based_priority (ps : List Page)
    (h : ps.any (fun p => pyStrip p.textLayer != "") = true) :
    extract_text_from_pdf (PdfContent.pages ps)
      = (some (String.join ((ps.filter (fun p => pyStrip p.textLayer != "")).map
                 (fun p => p.textLayer ++ "\n"))), 0) := by
  have hfun : pageHasText = (fun p => pyStrip p.textLayer != "") := funext pageHasText_eq
  rw [← hfun] at h ⊢
  simp [extract_text_from_pdf, textPass_eq, h]

/-- Witness for C3: a two-page document whose first page has text and
whose second page is whitespace-only recovers the first page's text plus
newline, with zero OCR calls. -/
theorem c3_text_based_priority_witness :
    extract_text_from_pdf (PdfContent.pages [⟨"hello", "ocr1"⟩, ⟨" ", "ocr2"⟩])
      = (some "hello\n", 0) :=
  (c3_text_based_priority [⟨"hello", "ocr1"⟩, ⟨" ", "ocr2"⟩] (by decide)).trans (by decide)

/-- C4: for every parseable document none of whose pages yields post-strip
text-layer text, text recovery performs exactly one OCR call per page and
returns the page-order concatenation of the per-page OCR outputs, each
followed by a newline. -/
theorem c4_ocr_fallback_completeness (ps : List Page)
    (h : ps.all (fun p => pyStrip p.textLayer == "") = true) :
    extract_text_from_pdf (PdfContent.pages ps)
      = (some (String.join (ps.map (fun p => p.ocrText ++ "\n"))), ps.length) := by
  have hany : ps.any pageHasText = false := by
    rw [List.any_eq_false]
    intro p hp
    have hp2 := List.all_eq_true.mp h p hp
    rw [pageHasText_eq]
    simp_all [bne]
  simp [extract_text_from_pdf, textPass_eq, hany, ocrPass_eq]

/-- Witness for C4: a two-page scan with no text layer produces two OCR
calls and the newline-joined OCR outputs. -/
theorem c4_ocr_fallback_completeness_witness :
    extract_text_from_pdf (PdfContent.pages [⟨"", "scan1"⟩, ⟨" \n", "scan2"⟩])
      = (some "scan1\nscan2\n", 2) :=
  (c4_ocr_fallback_completeness [⟨"", "scan1"⟩, ⟨" \n", "scan2"⟩] (by decide)).trans (by decide)

end SDS
